import Mathlib

/-!
Shallow embedding of the per-frame visual-analysis pipeline of the
INTEL_AI_PROJECT backend (`backend/app_simple.py`, `backend/mongodb_manager.py`)
and proofs about its attendance dedup engine, safety classifier, identity
matcher, PPE heuristics, error handling and gallery management.

External collaborators (OpenCV, the `face_recognition` library, MongoDB, the
base64 codec) appear either as explicit function parameters ("oracles") or as
faithful models of their documented behaviour; the control flow and arithmetic
of the repository's own code is translated directly.  Machine floats are
modelled as rationals; `np.pi` is the exact rational value of the IEEE-754
double used by numpy.

The module under analysis imports numpy and OpenCV only through lazy helper
functions, so `np` and `cv2` are never module-level globals.  Where the source
nevertheless references them as globals (`recognize_faces` at
app_simple.py:227, `analyze_safety_frame` at app_simple.py:1188-1189), or
calls a list method on the numpy array the cascade detector returns
(`process_frame` at app_simple.py:454), or applies a truthiness test to an
ndarray row (`detect_helmet`/`detect_safety_vest` at app_simple.py:308/366),
the embedding models the resulting `NameError`/`AttributeError`/`ValueError`
explicitly rather than the dead code behind it.
-/

namespace WMS

/-! ## Attendance dedup engine (`MongoDBManager.save_attendance`) -/

/-- Timestamps are naturals at microsecond granularity; one day is
86 400 000 000 microseconds, matching the `[00:00:00, 23:59:59.999999]`
day window built with `datetime.min.time()` / `datetime.max.time()`. -/
def usPerDay : Nat := 86400000000

/-- `today_start = datetime.combine(current_time.date(), datetime.min.time())`. -/
def dayStart (t : Nat) : Nat := usPerDay * (t / usPerDay)

/-- `today_end = datetime.combine(current_time.date(), datetime.max.time())`:
the last microsecond of the day of `t`. -/
def dayEnd (t : Nat) : Nat := dayStart t + (usPerDay - 1)

/-- One attendance document, with the fields `save_attendance` reads/writes
(bookkeeping fields `created_at`/`updated_at` omitted). -/
structure AttendanceRecord where
  employee_id : String
  check_in_time : Nat
  check_out_time : Option Nat
  confidence : ℚ
  detection_method : String
  timestamp : Nat
  deriving Repr, DecidableEq

/-- The Mongo filter
`{'employee_id': e, 'timestamp': {'$gte': today_start, '$lte': today_end}}`. -/
def matchesToday (e : String) (t : Nat) (r : AttendanceRecord) : Bool :=
  r.employee_id == e && decide (dayStart t ≤ r.timestamp) &&
    decide (r.timestamp ≤ dayEnd t)

/-- `update_one` semantics: rewrite the first list element satisfying the
filter. -/
def updateFirst (p : α → Bool) (f : α → α) : List α → List α
  | [] => []
  | r :: rs => if p r then f r :: rs else r :: updateFirst p f rs

/-- `MongoDBManager.save_attendance` (mongodb_manager.py:561-616), with the
collection as a list and `datetime.now()` passed in as `current_time`.  If a
record for (employee, day of `current_time`) exists, its `check_out_time`,
`confidence` (kept at the max) and `detection_method` are updated; otherwise a
fresh record with `check_out_time = None` is inserted. -/
def save_attendance (store : List AttendanceRecord) (employee_id : String)
    (confidence : ℚ) (current_time : Nat) (is_face_recognition : Bool) :
    List AttendanceRecord :=
  match store.find? (matchesToday employee_id current_time) with
  | some existing =>
      updateFirst (matchesToday employee_id current_time)
        (fun r =>
          { r with
            check_out_time := some current_time
            confidence := max existing.confidence confidence
            detection_method :=
              if is_face_recognition then "face_recognition" else "manual" })
        store
  | none =>
      store ++
        [{ employee_id := employee_id
           check_in_time := current_time
           check_out_time := none
           confidence := confidence
           detection_method :=
             if is_face_recognition then "face_recognition" else "manual"
           timestamp := current_time }]

/-- A sequence of `recordPresence` calls, each a (confidence, call time) pair,
run through `save_attendance` as the `/api/attendance/mark` path does
(`is_face_recognition = True`). -/
def runCalls (store : List AttendanceRecord) (e : String)
    (calls : List (ℚ × Nat)) : List AttendanceRecord :=
  calls.foldl (fun s c => save_attendance s e c.1 c.2 true) store

/-- The per-call record update applied by the `existing` branch of
`save_attendance`, folded over a call list. -/
def updFold : AttendanceRecord → List (ℚ × Nat) → AttendanceRecord
  | r, [] => r
  | r, c :: cs =>
    updFold
      { r with
        check_out_time := some c.2
        confidence := max r.confidence c.1
        detection_method := "face_recognition" } cs

/-! ## Safety events and alerts (`save_safety_event`, `create_alert`) -/

structure SafetyEvent where
  employee_id : String
  safety_status : String
  violations : List String
  violation_count : Nat
  deriving Repr, DecidableEq

structure Alert where
  employee_id : String
  type : String
  message : String
  priority : String
  status : String
  acknowledged : Bool
  deriving Repr, DecidableEq

/-- The two collections touched by `save_safety_event`. -/
structure EventDB where
  safety_events : List SafetyEvent
  alerts : List Alert
  deriving Repr, DecidableEq

/-- `MongoDBManager.create_alert` (mongodb_manager.py:935-958). -/
def create_alert (db : EventDB) (employee_id alert_type message priority : String) :
    EventDB :=
  { db with
    alerts := db.alerts ++
      [{ employee_id := employee_id
         type := alert_type
         message := message
         priority := priority
         status := "active"
         acknowledged := false }] }

/-- `MongoDBManager.save_safety_event` (mongodb_manager.py:738-768): always
insert a new event with `violation_count = len(violations)`; if the violation
list is truthy (non-empty), additionally create one high-priority alert. -/
def save_safety_event (db : EventDB) (employee_id safety_status : String)
    (violations : List String) : EventDB :=
  let db1 :=
    { db with
      safety_events := db.safety_events ++
        [{ employee_id := employee_id
           safety_status := safety_status
           violations := violations
           violation_count := violations.length }] }
  if violations ≠ [] then
    create_alert db1 employee_id "safety_violation"
      ("Safety violations detected: " ++ String.intercalate ", " violations)
      "high"
  else db1

/-! ## Feature gallery (`RealFaceRecognitionSystem`) -/

/-- The three parallel in-memory gallery lists, in the declaration order of
`RealFaceRecognitionSystem.__init__`. -/
structure GalleryState where
  known_face_encodings : List (List ℚ)
  known_face_names : List String
  known_employee_ids : List String
  deriving Repr, DecidableEq

/-- One employee document as returned by `get_all_employees_with_encodings`
(the repository writes `employee_id`, `name` and `face_encoding` on every
employee it creates). -/
structure EmployeeDoc where
  employee_id : String
  name : String
  face_encoding : List ℚ
  deriving Repr, DecidableEq

/-- Python truthiness test `emp.get('employee_id') and emp.get('face_encoding')`
in the load loop: a non-empty id string and a non-empty encoding list. -/
def employeeQualifies (e : EmployeeDoc) : Bool :=
  decide (e.employee_id ≠ "") && decide (e.face_encoding ≠ [])

/-- Effect of one iteration of the load loop on the three lists. -/
def loadStep (g : GalleryState) (e : EmployeeDoc) : GalleryState :=
  if employeeQualifies e then
    { known_face_encodings := g.known_face_encodings ++ [e.face_encoding]
      known_face_names := g.known_face_names ++ [e.name]
      known_employee_ids := g.known_employee_ids ++ [e.employee_id] }
  else g

/-- `RealFaceRecognitionSystem.load_employees_from_db` (app_simple.py:127-147)
viewed atomically: the three lists are reset and repopulated from the store. -/
def load_employees_from_db (_g : GalleryState) (emps : List EmployeeDoc) :
    GalleryState :=
  emps.foldl loadStep { known_face_encodings := []
                        known_face_names := []
                        known_employee_ids := [] }

/-- `RealFaceRecognitionSystem.register_employee` (app_simple.py:149-166): a
duplicate id is a no-op returning `False`; otherwise the id, name and (dummy)
encoding are appended and `True` is returned. -/
def register_employee (g : GalleryState) (name employee_id : String)
    (encoding : List ℚ) : GalleryState × Bool :=
  if employee_id ∈ g.known_employee_ids then (g, false)
  else
    ({ known_face_encodings := g.known_face_encodings ++ [encoding]
       known_face_names := g.known_face_names ++ [name]
       known_employee_ids := g.known_employee_ids ++ [employee_id] }, true)

/-- A gallery presented as a single aligned list of
(employee_id, name, encoding) entries. -/
def gOf (entries : List (String × String × List ℚ)) : GalleryState :=
  { known_face_encodings := entries.map (fun p => p.2.2)
    known_face_names := entries.map (fun p => p.2.1)
    known_employee_ids := entries.map (fun p => p.1) }

/-- The intermediate gallery states a concurrent reader can observe while the
body of `load_employees_from_db` executes: the code clears the three published
lists in place (app_simple.py:132-134, in the order encodings, names, ids) and
then appends id, name, encoding per qualifying employee
(app_simple.py:139-143). -/
def loadTraceGo : GalleryState → List EmployeeDoc → List GalleryState
  | _, [] => []
  | s, e :: es =>
    if employeeQualifies e then
      let a1 : GalleryState :=
        { s with known_employee_ids := s.known_employee_ids ++ [e.employee_id] }
      let a2 : GalleryState :=
        { a1 with known_face_names := a1.known_face_names ++ [e.name] }
      let a3 : GalleryState :=
        { a2 with known_face_encodings := a2.known_face_encodings ++ [e.face_encoding] }
      a1 :: a2 :: a3 :: loadTraceGo a3 es
    else loadTraceGo s es

/-- Full trace of published states during a reload, starting from the three
in-place clears. -/
def loadTrace (g : GalleryState) (emps : List EmployeeDoc) : List GalleryState :=
  { g with known_face_encodings := [] } ::
  { g with known_face_encodings := [], known_face_names := [] } ::
  ({ known_face_encodings := [], known_face_names := [],
     known_employee_ids := [] } : GalleryState) ::
  loadTraceGo { known_face_encodings := [], known_face_names := [],
                known_employee_ids := [] } emps

/-! ## Identity matcher (`RealFaceRecognitionSystem.recognize_faces`)

The module `app_simple.py` never binds a global `np`: numpy is only reachable
through the lazy helper `import_numpy()`, which each method must call locally.
`recognize_faces` (app_simple.py:189-256) binds `face_recognition` and `cv2`
but not `np`, so the `np.argmin(face_distances)` call at line 227 raises
`NameError` as soon as the gallery is non-empty and at least one face encoding
was produced; the surrounding `try/except` then returns `[]`.  Only with an
empty gallery does the per-face loop complete, emitting an UNKNOWN result with
confidence 0 per face.  The intended argmin/tolerance/confidence selection of
lines 227-232 is dead code. -/

/-- One enrolled identity of the gallery, in insertion order. -/
structure GalleryEntry where
  employee_id : String
  name : String
  encoding : List ℚ
  deriving Repr, DecidableEq

structure MatchResult where
  employee_id : String
  name : String
  confidence : ℚ
  deriving Repr, DecidableEq

/-- The component-boundary `except` handler: any internal exception becomes
the given default result. -/
def catchWith (default : α) : Except String α → α
  | .ok a => a
  | .error _ => default

/-- `RealFaceRecognitionSystem.recognize_faces` (app_simple.py:189-256): the
external face-localisation step yields the probe encodings (or raises).  With
a non-empty gallery, processing the first face reaches the unbound global at
`np.argmin` (line 227) and raises (CPython renders the message with the
identifier quoted); with an empty gallery each face yields the UNKNOWN
result.  The `try/except` boundary converts any raise into `[]`. -/
def recognize_faces (gallery : List GalleryEntry)
    (faceEncodings : Except String (List (List ℚ))) : List MatchResult :=
  catchWith [] (do
    let encs ← faceEncodings
    match encs with
    | [] => pure []
    | _ :: _ =>
      match gallery with
      | [] =>
        pure (encs.map fun _ =>
          { employee_id := "UNKNOWN", name := "Unknown Person",
            confidence := 0 })
      | _ :: _ => Except.error "NameError: name np is not defined")

/-! ## PPE heuristic detectors and person localizer (`RealSafetyMonitor`) -/

/-- A pixel rectangle (x, y, width, height). -/
structure Rect where
  x : Nat
  y : Nat
  w : Nat
  h : Nat
  deriving Repr, DecidableEq

/-- The geometric data OpenCV reports for one contour: `contourArea`,
`arcLength` (floats, modelled as rationals) and the integer `boundingRect`
(rx, ry, rwidth, rheight). -/
structure Contour where
  area : ℚ
  perimeter : ℚ
  rx : Nat
  ry : Nat
  rwidth : Nat
  rheight : Nat
  deriving Repr, DecidableEq

/-- `np.pi` as the exact rational value of its IEEE-754 double. -/
def piQ : ℚ := 884279719003555 / 281474976710656

/-- Helmet contour test (app_simple.py:321-330): area above 800 px², and if
the perimeter is positive, circularity `4·π·area / perimeter²` above 0.3. -/
def helmetQualifies (c : Contour) : Bool :=
  decide (800 < c.area) &&
    (decide (0 < c.perimeter) &&
      decide (3/10 < 4 * piQ * c.area / (c.perimeter * c.perimeter)))

/-- Vest contour test (app_simple.py:379-387): area above 1500 px² and
bounding-box aspect ratio width/height strictly between 0.5 and 2.0. -/
def vestQualifies (c : Contour) : Bool :=
  decide (1500 < c.area) &&
    (decide (1/2 < (c.rwidth : ℚ) / (c.rheight : ℚ)) &&
      decide ((c.rwidth : ℚ) / (c.rheight : ℚ) < 2))

/-- Fallback person contour test (app_simple.py:421-427): area above 5000 px²
and `h > w * 0.8`. -/
def personContourQualifies (c : Contour) : Bool :=
  decide (5000 < c.area) && decide ((c.rwidth : ℚ) * (4/5) < (c.rheight : ℚ))

/-- Region of the helmet colour mask searched for contours, as
(rowStart, rowEnd, colStart, colEnd): rows `y .. y + int(h*0.25)` of the
person box, or rows `0 .. int(height*0.3)` of the whole frame.  The float
truncations equal the integer divisions `h / 4` and `3 * h / 10` for all
realistic frame dimensions. -/
def helmetBand (frameH frameW : Nat) (bbox : Option Rect) :
    Nat × Nat × Nat × Nat :=
  match bbox with
  | some r => (r.y, r.y + r.h / 4, r.x, r.x + r.w)
  | none => (0, 3 * frameH / 10, 0, frameW)

/-- Region of the vest colour mask searched for contours: the 25%–75%
vertical band of the person box, or of the whole frame. -/
def vestBand (frameH frameW : Nat) (bbox : Option Rect) :
    Nat × Nat × Nat × Nat :=
  match bbox with
  | some r => (r.y + r.h / 4, r.y + 3 * r.h / 4, r.x, r.x + r.w)
  | none => (frameH / 4, 3 * frameH / 4, 0, frameW)

/-- The runtime type of a person box handed to the PPE checks.  The first
candidate is either a row of the cascade's numpy array (on which the
truthiness test `if person_bbox:` at app_simple.py:308/366 raises
`ValueError`), a plain `[x, y, w, h]` Python list (non-empty, hence truthy),
or the `None` default. -/
inductive BBoxValue where
  | ndrow (r : Rect)
  | pybox (r : Rect)
  | noneBox
  deriving Repr, DecidableEq

/-- The Python values `person_bbox` ranges over when it is not an ndarray
row: a plain list box or `None`. -/
def pyBBox : Option Rect → BBoxValue
  | some r => .pybox r
  | none => .noneBox

/-- The mask-and-contour body of `detect_helmet` once `if person_bbox:` has
taken a branch: the external `findContours` call over the masked band is the
oracle `contoursIn`. -/
def detect_helmet_masked (frameH frameW : Nat) (bbox : Option Rect)
    (contoursIn : Nat × Nat × Nat × Nat → Except String (List Contour)) :
    Except String Bool := do
  let cs ← contoursIn (helmetBand frameH frameW bbox)
  pure (cs.any helmetQualifies)

/-- `RealSafetyMonitor.detect_helmet` (app_simple.py:278-336): for an ndarray
row the truthiness test raises and the enclosing `try/except` returns
`False`; otherwise the band is scanned for qualifying contours, with any
failure again absorbed to `False`. -/
def detect_helmet (frameH frameW : Nat) (bbox : BBoxValue)
    (contoursIn : Nat × Nat × Nat × Nat → Except String (List Contour)) : Bool :=
  catchWith false
    (match bbox with
     | .ndrow _ => Except.error "ValueError: ambiguous ndarray truth value"
     | .pybox r => detect_helmet_masked frameH frameW (some r) contoursIn
     | .noneBox => detect_helmet_masked frameH frameW none contoursIn)

/-- The mask-and-contour body of `detect_safety_vest`. -/
def detect_vest_masked (frameH frameW : Nat) (bbox : Option Rect)
    (contoursIn : Nat × Nat × Nat × Nat → Except String (List Contour)) :
    Except String Bool := do
  let cs ← contoursIn (vestBand frameH frameW bbox)
  pure (cs.any vestQualifies)

/-- `RealSafetyMonitor.detect_safety_vest` (app_simple.py:338-393), with the
same `if person_bbox:` behaviour as the helmet check. -/
def detect_safety_vest (frameH frameW : Nat) (bbox : BBoxValue)
    (contoursIn : Nat × Nat × Nat × Nat → Except String (List Contour)) : Bool :=
  catchWith false
    (match bbox with
     | .ndrow _ => Except.error "ValueError: ambiguous ndarray truth value"
     | .pybox r => detect_vest_masked frameH frameW (some r) contoursIn
     | .noneBox => detect_vest_masked frameH frameW none contoursIn)

/-- The runtime type of `detect_person`'s result: `detectMultiScale` hits are
returned as the numpy array itself (app_simple.py:408-409), while the
edge-contour fallback and the `except` path return plain Python lists. -/
inductive PersonsValue where
  | ndarray (rs : List Rect)
  | pylist (rs : List Rect)
  deriving Repr, DecidableEq

/-- `RealSafetyMonitor.detect_person` (app_simple.py:395-433): the cascade
classifier is tried first and its non-empty ndarray returned as is; only when
it finds nothing does the edge-contour fallback run, producing a list; any
failure yields an empty list. -/
def detect_person (cascadePersons : Except String (List Rect))
    (edgeContours : Except String (List Contour)) : PersonsValue :=
  catchWith (.pylist []) (do
    let ps ← cascadePersons
    if 0 < ps.length then pure (.ndarray ps)
    else do
      let cs ← edgeContours
      pure (.pylist ((cs.filter personContourQualifies).map
        (fun c => { x := c.rx, y := c.ry, w := c.rwidth, h := c.rheight }))))

/-! ## Fusion & classifier (`RealSafetyMonitor.process_frame`) -/

structure SafetyResult where
  violations : List String
  safety_score : ℚ
  safety_status : String
  hasHelmet : Bool
  hasVest : Bool
  persons_detected : Nat
  deriving Repr, DecidableEq

/-- The score/status chain of `process_frame` (app_simple.py:477-493), keyed
on the person count and the violation count. -/
def scoreAndStatus (personsCount : Nat) (violations : List String) :
    ℚ × String :=
  if personsCount = 0 then (1/2, "no_person_detected")
  else if violations.length = 0 then (1, "compliant")
  else if violations.length = 1 then (7/10, "minor_violation")
  else if violations.length = 2 then (2/5, "major_violation")
  else (1/10, "critical")

/-- Face-to-person box expansion (app_simple.py:450-453):
`(max(0, x - w//2), max(0, y - h//4), w*2, h*4)`; natural subtraction
performs the clamping to 0. -/
def expandFaceToPerson (r : Rect) : Rect :=
  { x := r.x - r.w / 2, y := r.y - r.h / 4, w := 2 * r.w, h := 4 * r.h }

/-- The person candidate list assembled by `process_frame`
(app_simple.py:440-456) when `detect_person` produced a plain list: detector
output first, then one expanded box per face result that carries a bbox, in
face order.  (When `detect_person` produced an ndarray this list is never
formed: the first `persons.append` raises — see `process_frame`.) -/
def personCandidates (detected : List Rect) (faces : List (Option Rect)) :
    List Rect :=
  detected ++ (faces.filterMap id).map expandFaceToPerson

/-- The `except` result of `process_frame` (app_simple.py:508-520). -/
def systemErrorResult : SafetyResult :=
  { violations := ["Safety system error"], safety_score := 0
    safety_status := "system_error", hasHelmet := false, hasVest := false
    persons_detected := 0 }

/-- Body of `process_frame` (app_simple.py:458-506) after person collection:
with no person, the fixed no-person violation is recorded and helmet/vest are
`False`; otherwise the two PPE checks run against the first candidate — whose
runtime type `mk` records (ndarray row vs Python list) — and contribute their
violation strings; then the score/status chain runs. -/
def process_frame_core (persons : List Rect) (mk : Rect → BBoxValue)
    (helmetAt vestAt : BBoxValue → Bool) : SafetyResult :=
  match persons with
  | [] =>
    let violations := ["No person detected for safety assessment"]
    let ss := scoreAndStatus 0 violations
    { violations := violations, safety_score := ss.1, safety_status := ss.2
      hasHelmet := false, hasVest := false, persons_detected := 0 }
  | p :: ps =>
    let hasHelmet := helmetAt (mk p)
    let hasVest := vestAt (mk p)
    let violations :=
      (if hasHelmet then [] else ["Hard hat required"]) ++
        (if hasVest then [] else ["Safety vest required"])
    let ss := scoreAndStatus (p :: ps).length violations
    { violations := violations, safety_score := ss.1, safety_status := ss.2
      hasHelmet := hasHelmet, hasVest := hasVest
      persons_detected := (p :: ps).length }

/-- `RealSafetyMonitor.process_frame` (app_simple.py:435-520) with the
sub-detector outcomes as parameters: `pv` is the `detect_person` output,
`faces` the bboxes of the face results, and `helmetAt`/`vestAt` the PPE
checks on a given person box.  When `pv` is the cascade's ndarray and some
face carries a bbox, `persons.append(...)` at line 454 raises
`AttributeError` and the `except` returns the system_error assessment; with
no bbox-carrying face the ndarray flows through unchanged (its first row
being an ndarray row), and on the list path the face boxes are appended. -/
def process_frame (pv : PersonsValue) (faces : List (Option Rect))
    (helmetAt vestAt : BBoxValue → Bool) : SafetyResult :=
  match pv with
  | .ndarray ps =>
    if faces.filterMap id = [] then
      process_frame_core ps BBoxValue.ndrow helmetAt vestAt
    else systemErrorResult
  | .pylist ps =>
    process_frame_core (personCandidates ps faces) BBoxValue.pybox
      helmetAt vestAt

/-! ## Frame analysis endpoint (`analyze_safety_frame`)

`base64.b64decode(s)` (validate mode off) is modelled after CPython's
`binascii.a2b_base64`: non-alphabet characters are skipped; a `'='` after two
data characters of a quad terminates decoding when the next significant
character is another `'='` and is otherwise dropped; a `'='` after three data
characters terminates decoding; leftover quads of length 1 and of length 2/3
raise the "cannot be 1 more than a multiple of 4" and "Incorrect padding"
errors respectively. -/

def isB64Char (c : Char) : Bool :=
  (65 ≤ c.toNat && c.toNat ≤ 90) || (97 ≤ c.toNat && c.toNat ≤ 122) ||
    (48 ≤ c.toNat && c.toNat ≤ 57) || c == '+' || c == '/'

def b64Val (c : Char) : Nat :=
  if 65 ≤ c.toNat && c.toNat ≤ 90 then c.toNat - 65
  else if 97 ≤ c.toNat && c.toNat ≤ 122 then c.toNat - 97 + 26
  else if 48 ≤ c.toNat && c.toNat ≤ 57 then c.toNat - 48 + 52
  else if c == '+' then 62
  else 63

/-- Bytes of a complete quad of 6-bit values. -/
def emit4 (a b c d : Nat) : List Nat :=
  [a * 4 + b / 16, b % 16 * 16 + c / 4, c % 4 * 64 + d]

/-- Bytes flushed when padding closes a quad after three data characters. -/
def emit3 (a b c : Nat) : List Nat := [a * 4 + b / 16, b % 16 * 16 + c / 4]

/-- Byte flushed when padding closes a quad after two data characters. -/
def emit2 (a b : Nat) : List Nat := [a * 4 + b / 16]

/-- First upcoming character that is either a data character or `'='`. -/
def nextSig : List Char → Option Char
  | [] => none
  | c :: rest => if isB64Char c || c == '=' then some c else nextSig rest

def b64Run : List Char → List Nat → List Nat → Except String (List Nat)
  | [], quad, out =>
    match quad with
    | [] => .ok out
    | [_] => .error "Invalid base64-encoded string: number of data characters cannot be 1 more than a multiple of 4"
    | _ => .error "Incorrect padding"
  | c :: rest, quad, out =>
    if isB64Char c then
      match quad with
      | [a, b, d] => b64Run rest [] (out ++ emit4 a b d (b64Val c))
      | _ => b64Run rest (quad ++ [b64Val c]) out
    else if c == '=' then
      match quad with
      | [a, b, d] => .ok (out ++ emit3 a b d)
      | [a, b] =>
        if nextSig rest == some '=' then .ok (out ++ emit2 a b)
        else b64Run rest [a, b] out
      | _ => b64Run rest quad out
    else b64Run rest quad out

def b64decode (s : List Char) : Except String (List Nat) := b64Run s [] []

/-- Python's `str.split(',')` on a character list. -/
def splitOnComma : List Char → List (List Char)
  | [] => [[]]
  | c :: rest =>
    if c == ',' then [] :: splitOnComma rest
    else
      match splitOnComma rest with
      | [] => [[c]]
      | p :: ps => (c :: p) :: ps

/-- `if ',' in frame_data_str: frame_data_str = frame_data_str.split(',')[1]`:
with a comma present, the segment between the first and second comma. -/
def stripDataUrl (s : List Char) : List Char :=
  match splitOnComma s with
  | _ :: second :: _ => second
  | _ => s

/-- A Flask `create_response` outcome: `jsonify(data), status` on success or
`jsonify({'error': msg}), status` on failure. -/
inductive Response where
  | payload (status : Nat) (result : SafetyResult)
  | err (status : Nat) (msg : String)
  deriving Repr, DecidableEq

/-- `analyze_safety_frame` (app_simple.py:1171-1216): missing frame data is a
400; a `binascii` error from `b64decode` (line 1187) propagates to the
`except` and is reported as 500 "Safety analysis failed: ..."; and because the
route never binds the globals `np`/`cv2` used at lines 1188-1189, every
successfully base64-decoded payload raises `NameError` there and is likewise
answered 500 (message as CPython renders it, with its quotes around the
identifier omitted).  The `if frame is None: ... 'Invalid image format', 400`
branch at lines 1191-1192 and the 200 assessment path below it are
unreachable. -/
def analyze_safety_frame (frame_data : Option (List Char)) : Response :=
  match frame_data with
  | none => .err 400 "Frame data is required"
  | some s =>
    match b64decode (stripDataUrl s) with
    | .error e => .err 500 ("Safety analysis failed: " ++ e)
    | .ok _ => .err 500 ("Safety analysis failed: " ++ "name np is not defined")

/-! ## Helper lemmas -/

theorem mem_day_iff (t u : Nat) :
    (dayStart t ≤ u ∧ u ≤ dayEnd t) ↔ u / usPerDay = t / usPerDay := by
  simp only [dayStart, dayEnd, usPerDay]
  omega

theorem matchesToday_iff (e : String) (t : Nat) (r : AttendanceRecord) :
    matchesToday e t r = true ↔
      r.employee_id = e ∧ r.timestamp / usPerDay = t / usPerDay := by
  unfold matchesToday
  rw [← mem_day_iff]
  simp [and_assoc]

theorem save_attendance_update (r : AttendanceRecord) (e : String) (c : ℚ)
    (t : Nat) (he : r.employee_id = e)
    (hd : r.timestamp / usPerDay = t / usPerDay) :
    save_attendance [r] e c t true =
      [{ r with
          check_out_time := some t
          confidence := max r.confidence c
          detection_method := "face_recognition" }] := by
  have hm : matchesToday e t r = true := (matchesToday_iff e t r).mpr ⟨he, hd⟩
  unfold save_attendance
  simp [List.find?, hm, updateFirst]

theorem updFold_employee_id (calls : List (ℚ × Nat)) (r : AttendanceRecord) :
    (updFold r calls).employee_id = r.employee_id := by
  induction calls generalizing r with
  | nil => rfl
  | cons c cs ih => exact ih _

theorem updFold_check_in (calls : List (ℚ × Nat)) (r : AttendanceRecord) :
    (updFold r calls).check_in_time = r.check_in_time := by
  induction calls generalizing r with
  | nil => rfl
  | cons c cs ih => exact ih _

theorem updFold_timestamp (calls : List (ℚ × Nat)) (r : AttendanceRecord) :
    (updFold r calls).timestamp = r.timestamp := by
  induction calls generalizing r with
  | nil => rfl
  | cons c cs ih => exact ih _

theorem updFold_check_out (calls : List (ℚ × Nat)) (r : AttendanceRecord)
    (hne : calls ≠ []) :
    (updFold r calls).check_out_time = calls.getLast?.map Prod.snd := by
  induction calls generalizing r with
  | nil => exact absurd rfl hne
  | cons c cs ih =>
    cases cs with
    | nil => rfl
    | cons d ds =>
      rw [updFold, ih _ (by simp), List.getLast?_cons_cons]

theorem updFold_confidence (calls : List (ℚ × Nat)) (r : AttendanceRecord) :
    (updFold r calls).confidence = (calls.map Prod.fst).foldl max r.confidence := by
  induction calls generalizing r with
  | nil => rfl
  | cons c cs ih => exact ih _

theorem le_foldl_max (l : List ℚ) (a : ℚ) : a ≤ l.foldl max a := by
  induction l generalizing a with
  | nil => exact le_refl a
  | cons x l ih => exact le_trans (le_max_left a x) (ih _)

theorem mem_le_foldl_max (l : List ℚ) (a : ℚ) :
    ∀ x ∈ l, x ≤ l.foldl max a := by
  induction l generalizing a with
  | nil => intro x hx; cases hx
  | cons y l ih =>
    intro x hx
    rcases List.mem_cons.mp hx with h | h
    · subst h; exact le_trans (le_max_right a x) (le_foldl_max l _)
    · exact ih _ x h

theorem foldl_max_mem (l : List ℚ) (a : ℚ) :
    l.foldl max a = a ∨ l.foldl max a ∈ l := by
  induction l generalizing a with
  | nil => exact Or.inl rfl
  | cons x l ih =>
    rcases ih (max a x) with h | h
    · rcases max_choice a x with hm | hm
      · exact Or.inl (by rw [List.foldl_cons, h, hm])
      · exact Or.inr (by rw [List.foldl_cons, h, hm]; exact List.mem_cons_self x l)
    · exact Or.inr (List.mem_cons_of_mem x h)

theorem runCalls_single (calls : List (ℚ × Nat)) (r : AttendanceRecord)
    (e : String) (he : r.employee_id = e)
    (hd : ∀ p ∈ calls, p.2 / usPerDay = r.timestamp / usPerDay) :
    runCalls [r] e calls = [updFold r calls] := by
  induction calls generalizing r with
  | nil => rfl
  | cons c cs ih =>
    have h1 := save_attendance_update r e c.1 c.2 he
      ((hd c (List.mem_cons_self c cs)).symm)
    have h2 : runCalls [r] e (c :: cs) =
        runCalls (save_attendance [r] e c.1 c.2 true) e cs := rfl
    rw [h2, h1, updFold]
    exact ih _ he (fun p hp => hd p (List.mem_cons_of_mem c hp))

/-! ## Claim theorems -/

/-- C1 (amended): for one or more `recordPresence` calls with strictly
increasing timestamps on one date, starting from an empty store, exactly one
attendance record exists for that employee and date, with `check_in_time` the
first call's timestamp, `confidence` the maximum confidence over all calls,
and `check_out_time` the last call's timestamp when there are at least two
calls — and `None` after a single call. -/
theorem save_attendance_same_day_dedup (e : String) (c1 : ℚ) (t1 : Nat)
    (rest : List (ℚ × Nat))
    (hday : ∀ p ∈ rest, p.2 / usPerDay = t1 / usPerDay)
    (_hinc : List.Chain' (fun a b => a < b) (t1 :: rest.map Prod.snd)) :
    ∃ r : AttendanceRecord,
      runCalls [] e ((c1, t1) :: rest) = [r] ∧
      r.employee_id = e ∧
      r.check_in_time = t1 ∧
      r.check_out_time = rest.getLast?.map Prod.snd ∧
      (r.confidence = c1 ∨ r.confidence ∈ rest.map Prod.fst) ∧
      c1 ≤ r.confidence ∧
      ∀ x ∈ rest.map Prod.fst, x ≤ r.confidence := by
  classical
  set r0 : AttendanceRecord :=
    { employee_id := e, check_in_time := t1, check_out_time := none,
      confidence := c1, detection_method := "face_recognition",
      timestamp := t1 } with hr0
  have h0 : save_attendance [] e c1 t1 true = [r0] := by
    unfold save_attendance
    simp [List.find?, hr0]
  have hstep : runCalls [] e ((c1, t1) :: rest) = runCalls [r0] e rest := by
    have : runCalls [] e ((c1, t1) :: rest) =
        runCalls (save_attendance [] e c1 t1 true) e rest := rfl
    rw [this, h0]
  have hrun : runCalls [r0] e rest = [updFold r0 rest] :=
    runCalls_single rest r0 e rfl (fun p hp => hday p hp)
  refine ⟨updFold r0 rest, by rw [hstep, hrun], ?_, ?_, ?_, ?_, ?_, ?_⟩
  · exact updFold_employee_id rest r0
  · exact updFold_check_in rest r0
  · cases hrest : rest with
    | nil => simp [hrest, updFold]
    | cons p ps => rw [← hrest, updFold_check_out rest r0 (by simp [hrest])]
  · have := foldl_max_mem (rest.map Prod.fst) c1
    rw [updFold_confidence]
    exact this
  · rw [updFold_confidence]
    exact le_foldl_max _ _
  · rw [updFold_confidence]
    exact mem_le_foldl_max _ _

/-- C1 counterexample to the claim as stated: after a single call at
timestamp 5, the stored record's `check_out_time` is `None`, not the (first =
last) call's timestamp 5. -/
theorem save_attendance_single_call_checkout_null :
    (runCalls [] "EMP1" [((1 : ℚ), 5)]).map (fun r => r.check_out_time) =
      [none] ∧ (none : Option Nat) ≠ some 5 := by
  constructor
  · rfl
  · simp

/-- C1 witness: two same-day calls at timestamps 5 and 7 leave exactly one
record with check-in 5, check-out 7 and the maximum confidence 3/4. -/
theorem save_attendance_same_day_dedup_witness :
    (runCalls [] "EMP1" [((1/2 : ℚ), 5), ((3/4 : ℚ), 7)]).map
      (fun r => (r.employee_id, r.check_in_time, r.check_out_time,
        r.confidence)) = [("EMP1", 5, some 7, (3/4 : ℚ))] := by
  obtain ⟨r, hrun, hid, hin, hout, hconf, hge1, hge2⟩ :=
    save_attendance_same_day_dedup "EMP1" (1/2) 5 [((3/4 : ℚ), 7)]
      (by intro p hp; simp at hp; subst hp; decide)
      (by simp [List.chain'_cons])
  have hc : r.confidence = 3/4 := by
    have h34 : (3/4 : ℚ) ≤ r.confidence := hge2 (3/4) (by simp)
    rcases hconf with h | h
    · rw [h] at h34; norm_num at h34
    · simpa using h
  rw [hrun]
  simp [hid, hin, hc, hout]

/-- C5: `save_safety_event` always appends one event whose `violation_count`
is the length of the violation list, and appends exactly one high-priority
alert iff the violation list is non-empty. -/
theorem save_safety_event_contract (db : EventDB) (e st : String)
    (vs : List String) :
    (save_safety_event db e st vs).safety_events =
      db.safety_events ++
        [{ employee_id := e, safety_status := st, violations := vs,
           violation_count := vs.length }] ∧
    (vs = [] → (save_safety_event db e st vs).alerts = db.alerts) ∧
    (vs ≠ [] → (save_safety_event db e st vs).alerts =
      db.alerts ++
        [{ employee_id := e, type := "safety_violation",
           message := "Safety violations detected: " ++
             String.intercalate ", " vs,
           priority := "high", status := "active", acknowledged := false }]) := by
  unfold save_safety_event create_alert
  by_cases h : vs = [] <;> simp [h]

/-- C5 witness: one violation produces the event and its high-priority
alert. -/
theorem save_safety_event_contract_witness :
    (save_safety_event { safety_events := [], alerts := [] } "EMP1"
        "minor_violation" ["Hard hat required"]).safety_events =
      [{ employee_id := "EMP1", safety_status := "minor_violation",
         violations := ["Hard hat required"], violation_count := 1 }] ∧
    (save_safety_event { safety_events := [], alerts := [] } "EMP1"
        "minor_violation" ["Hard hat required"]).alerts =
      [{ employee_id := "EMP1", type := "safety_violation",
         message := "Safety violations detected: Hard hat required",
         priority := "high", status := "active", acknowledged := false }] := by
  have h := save_safety_event_contract
    { safety_events := [], alerts := [] } "EMP1" "minor_violation"
    ["Hard hat required"]
  refine ⟨by simpa using h.1, ?_⟩
  have h2 := h.2.2 (by simp)
  simpa using h2

/-- C2 (amended): classifier table of `process_frame`, except on frames where
the primary cascade produced the person array and some face result carries a
bbox — there the face-seeding `persons.append` raises `AttributeError` and
the frame is assessed system_error (violations ["Safety system error"],
score 0.0).  On every other path: with no person candidate the result is the
fixed no-person assessment (score 0.5) regardless of the PPE checks; with a
first candidate `p`, "Hard hat required" is a violation iff the helmet check
fails and "Safety vest required" iff the vest check fails, and the violation
count maps to score/status as 0 ↦ (1.0, compliant), 1 ↦ (0.7,
minor_violation), 2 ↦ (0.4, major_violation); defensively, any count ≥ 3
with a person present maps to (0.1, critical). -/
theorem process_frame_classifier_table (pv : PersonsValue)
    (faces : List (Option Rect)) (helmetAt vestAt : BBoxValue → Bool) :
    (∀ ps, pv = .pylist ps →
      process_frame pv faces helmetAt vestAt =
        process_frame_core (personCandidates ps faces) BBoxValue.pybox
          helmetAt vestAt) ∧
    (∀ ps, pv = .ndarray ps → faces.filterMap id = [] →
      process_frame pv faces helmetAt vestAt =
        process_frame_core ps BBoxValue.ndrow helmetAt vestAt) ∧
    (∀ ps, pv = .ndarray ps → faces.filterMap id ≠ [] →
      process_frame pv faces helmetAt vestAt = systemErrorResult) ∧
    systemErrorResult.violations = ["Safety system error"] ∧
    systemErrorResult.safety_score = 0 ∧
    systemErrorResult.safety_status = "system_error" ∧
    (∀ (mk : Rect → BBoxValue) (hA vA : BBoxValue → Bool),
      process_frame_core [] mk hA vA =
        { violations := ["No person detected for safety assessment"],
          safety_score := 1/2, safety_status := "no_person_detected",
          hasHelmet := false, hasVest := false, persons_detected := 0 }) ∧
    (∀ (p : Rect) (ps : List Rect) (mk : Rect → BBoxValue)
        (out : SafetyResult),
      out = process_frame_core (p :: ps) mk helmetAt vestAt →
      out.persons_detected = ps.length + 1 ∧
      out.hasHelmet = helmetAt (mk p) ∧
      out.hasVest = vestAt (mk p) ∧
      (("Hard hat required" ∈ out.violations) ↔ helmetAt (mk p) = false) ∧
      (("Safety vest required" ∈ out.violations) ↔ vestAt (mk p) = false) ∧
      (out.violations.length = 0 →
        out.safety_score = 1 ∧ out.safety_status = "compliant") ∧
      (out.violations.length = 1 →
        out.safety_score = 7/10 ∧ out.safety_status = "minor_violation") ∧
      (out.violations.length = 2 →
        out.safety_score = 2/5 ∧ out.safety_status = "major_violation")) ∧
    (∀ (n : Nat) (vs : List String), n ≠ 0 → 3 ≤ vs.length →
      scoreAndStatus n vs = (1/10, "critical")) := by
  refine ⟨?_, ?_, ?_, rfl, rfl, rfl, fun mk hA vA => rfl, ?_, ?_⟩
  · intro ps h
    subst h
    rfl
  · intro ps h hf
    subst h
    simp only [process_frame]
    rw [if_pos hf]
  · intro ps h hf
    subst h
    simp only [process_frame]
    rw [if_neg hf]
  · intro p ps mk out hout
    subst hout
    cases hH : helmetAt (mk p) <;> cases hV : vestAt (mk p) <;>
      simp [process_frame_core, scoreAndStatus, hH, hV]
  · intro n vs hn hlen
    have h0 : ¬ vs.length = 0 := by omega
    have h1 : ¬ vs.length = 1 := by omega
    have h2 : ¬ vs.length = 2 := by omega
    simp [scoreAndStatus, hn, h0, h1, h2]

/-- C2 counterexample to the claim as stated: a frame whose person came from
the cascade (ndarray) together with one face result is not classified by the
table (the claim would give compliant, score 1.0, with both checks passing)
but by the `except` path, as system_error with score 0.0. -/
theorem process_frame_ndarray_face_system_error :
    process_frame (.ndarray [{ x := 0, y := 0, w := 50, h := 100 }])
      [some { x := 10, y := 10, w := 20, h := 20 }]
      (fun _ => true) (fun _ => true) = systemErrorResult ∧
    systemErrorResult.safety_score = 0 ∧
    systemErrorResult.safety_status = "system_error" ∧
    "system_error" ≠ "compliant" := by
  exact ⟨rfl, rfl, rfl, by decide⟩

/-- C2 witness: a fallback-path person with helmet missing and vest present
is a minor violation at score 0.7. -/
theorem process_frame_classifier_table_witness :
    (process_frame (.pylist [{ x := 0, y := 0, w := 10, h := 20 }]) []
        (fun _ => false) (fun _ => true)).safety_score = 7/10 ∧
    (process_frame (.pylist [{ x := 0, y := 0, w := 10, h := 20 }]) []
        (fun _ => false) (fun _ => true)).safety_status = "minor_violation" ∧
    scoreAndStatus 1 ["a", "b", "c"] = (1/10, "critical") := by
  have h := process_frame_classifier_table
    (.pylist [{ x := 0, y := 0, w := 10, h := 20 }]) []
    (fun _ => false) (fun _ => true)
  have h3 := h.2.2.2.2.2.2.2.1 { x := 0, y := 0, w := 10, h := 20 } []
    BBoxValue.pybox
    (process_frame (.pylist [{ x := 0, y := 0, w := 10, h := 20 }]) []
      (fun _ => false) (fun _ => true))
    (h.1 [{ x := 0, y := 0, w := 10, h := 20 }] rfl)
  have hlen : (process_frame (.pylist [{ x := 0, y := 0, w := 10, h := 20 }])
      [] (fun _ => false) (fun _ => true)).violations.length = 1 := rfl
  have h4 := h3.2.2.2.2.2.2.1 hlen
  exact ⟨h4.1, h4.2, h.2.2.2.2.2.2.2.2 1 ["a", "b", "c"] (by omega) (by simp)⟩

/-- C7 (amended): when the person candidates came from the fallback/list path
each face box (x, y, w, h) is expanded to (max(0, x − w/2), max(0, y − h/4),
2w, 4h) and appended after the detections, in face order; when the primary
cascade produced the detections (an ndarray) and some face carries a bbox,
the append raises and the frame is assessed system_error, so face-derived
regions are never appended after primary detections. -/
theorem person_candidates_order (detected : List Rect)
    (faces : List (Option Rect)) :
    personCandidates detected faces =
      detected ++ (faces.filterMap id).map expandFaceToPerson ∧
    (personCandidates detected faces).take detected.length = detected ∧
    (personCandidates detected faces).drop detected.length =
      (faces.filterMap id).map expandFaceToPerson ∧
    (∀ r : Rect,
      ((expandFaceToPerson r).x : ℤ) = max 0 ((r.x : ℤ) - (r.w : ℤ) / 2) ∧
      ((expandFaceToPerson r).y : ℤ) = max 0 ((r.y : ℤ) - (r.h : ℤ) / 4) ∧
      (expandFaceToPerson r).w = 2 * r.w ∧
      (expandFaceToPerson r).h = 4 * r.h) ∧
    (∀ hA vA : BBoxValue → Bool,
      process_frame (.pylist detected) faces hA vA =
        process_frame_core
          (detected ++ (faces.filterMap id).map expandFaceToPerson)
          BBoxValue.pybox hA vA) ∧
    (faces.filterMap id ≠ [] →
      ∀ (ps : List Rect) (hA vA : BBoxValue → Bool),
        process_frame (.ndarray ps) faces hA vA = systemErrorResult) := by
  refine ⟨rfl, ?_, ?_, ?_, fun hA vA => rfl, ?_⟩
  · exact List.take_left detected _
  · exact List.drop_left detected _
  · intro r
    refine ⟨?_, ?_, rfl, rfl⟩
    · have hdiv : ((r.w : ℤ) / 2) = ((r.w / 2 : Nat) : ℤ) :=
        (Int.ofNat_tdiv r.w 2).symm
      rw [show (expandFaceToPerson r).x = r.x - r.w / 2 from rfl, hdiv]
      omega
    · have hdiv : ((r.h : ℤ) / 4) = ((r.h / 4 : Nat) : ℤ) :=
        (Int.ofNat_tdiv r.h 4).symm
      rw [show (expandFaceToPerson r).y = r.y - r.h / 4 from rfl, hdiv]
      omega
  · intro hf ps hA vA
    simp only [process_frame]
    rw [if_neg hf]

/-- C7 counterexample to the claim as stated: with one cascade detection and
one face region, the claimed candidate list [primary, face-derived] (two
persons) never forms — the frame is assessed system_error with zero persons
recorded. -/
theorem face_boxes_never_after_primary :
    process_frame (.ndarray [{ x := 5, y := 5, w := 40, h := 80 }])
      [some { x := 8, y := 8, w := 16, h := 16 }]
      (fun _ => true) (fun _ => true) = systemErrorResult ∧
    systemErrorResult.persons_detected = 0 ∧
    (0 : Nat) ≠ 2 := by
  exact ⟨rfl, rfl, by decide⟩

/-- C7 witness: on the fallback path the face box is appended after the
detection; on the primary-ndarray path the same face yields system_error. -/
theorem person_candidates_order_witness :
    (personCandidates [{ x := 0, y := 0, w := 30, h := 60 }]
      [some { x := 4, y := 4, w := 8, h := 8 }]).drop 1 =
      [expandFaceToPerson { x := 4, y := 4, w := 8, h := 8 }] ∧
    process_frame (.ndarray [{ x := 0, y := 0, w := 30, h := 60 }])
      [some { x := 4, y := 4, w := 8, h := 8 }]
      (fun _ => true) (fun _ => true) = systemErrorResult := by
  have h := person_candidates_order [{ x := 0, y := 0, w := 30, h := 60 }]
    [some { x := 4, y := 4, w := 8, h := 8 }]
  exact ⟨by simpa using h.2.2.1,
    h.2.2.2.2.2 (by simp) [{ x := 0, y := 0, w := 30, h := 60 }] _ _⟩

/-- C3 (refuted, code bug): `recognize_faces` never binds `np`, so with any
non-empty gallery the `np.argmin` call at app_simple.py:227 raises
`NameError` on the first face and the matcher returns `[]` — in particular a
probe encoding equal to an enrolled identity EMP_A's reference vector yields
no match at all, not EMP_A with confidence 1.0.  With an empty gallery each
face yields the UNKNOWN result with confidence 0. -/
theorem recognize_faces_np_unbound :
    (∀ (g : GalleryEntry) (gs : List GalleryEntry) (e : List ℚ)
        (encs : List (List ℚ)),
      recognize_faces (g :: gs) (.ok (e :: encs)) = []) ∧
    recognize_faces
      [{ employee_id := "EMP_A", name := "Alice", encoding := [1, 2] }]
      (.ok [[1, 2]]) = [] ∧
    ([] : List MatchResult) ≠
      [{ employee_id := "EMP_A", name := "Alice", confidence := 1 }] ∧
    (∀ encs : List (List ℚ),
      recognize_faces [] (.ok encs) =
        encs.map fun _ =>
          { employee_id := "UNKNOWN", name := "Unknown Person",
            confidence := 0 }) := by
  refine ⟨fun g gs e encs => rfl, rfl, by decide, ?_⟩
  intro encs
  cases encs <;> rfl

/-- C4: every internal exception in the identity matcher, person localizer or
PPE heuristic detectors is absorbed at the component boundary: the matcher
yields `[]` (for a localisation failure and equally for the `NameError` its
body raises on a non-empty gallery), the localizer `[]` (whether the cascade
or the contour fallback fails), and each PPE check `false` (for a contour
failure and equally for the `ValueError` an ndarray-row bbox raises).  Each
component is a total function, so no exception ever reaches its caller. -/
theorem components_catch_exceptions
    (gallery : List GalleryEntry)
    (cascadePersons : Except String (List Rect))
    (edgeContours : Except String (List Contour))
    (frameH frameW : Nat) (bbox : Option Rect)
    (contoursH contoursV : Nat × Nat × Nat × Nat → Except String (List Contour)) :
    (∀ msg, recognize_faces gallery (.error msg) = []) ∧
    (∀ (g : GalleryEntry) (gs : List GalleryEntry) (e : List ℚ)
        (encs : List (List ℚ)),
      recognize_faces (g :: gs) (.ok (e :: encs)) = []) ∧
    (∀ msg, cascadePersons = .error msg →
      detect_person cascadePersons edgeContours = .pylist []) ∧
    (∀ msg, cascadePersons = .ok [] → edgeContours = .error msg →
      detect_person cascadePersons edgeContours = .pylist []) ∧
    (∀ msg, contoursH (helmetBand frameH frameW bbox) = .error msg →
      detect_helmet frameH frameW (pyBBox bbox) contoursH = false) ∧
    (∀ msg, contoursV (vestBand frameH frameW bbox) = .error msg →
      detect_safety_vest frameH frameW (pyBBox bbox) contoursV = false) ∧
    (∀ r : Rect, detect_helmet frameH frameW (.ndrow r) contoursH = false) ∧
    (∀ r : Rect, detect_safety_vest frameH frameW (.ndrow r) contoursV = false) := by
  refine ⟨fun msg => rfl, fun g gs e encs => rfl, ?_, ?_, ?_, ?_,
    fun r => rfl, fun r => rfl⟩
  · intro msg h
    unfold detect_person
    rw [h]
    rfl
  · intro msg h1 h2
    unfold detect_person
    rw [h1]
    show catchWith (PersonsValue.pylist []) (Except.bind edgeContours _) =
      PersonsValue.pylist []
    rw [h2]
    rfl
  · intro msg h
    cases bbox <;>
      · show catchWith false (detect_helmet_masked frameH frameW _ contoursH) =
          false
        unfold detect_helmet_masked
        rw [h]
        rfl
  · intro msg h
    cases bbox <;>
      · show catchWith false (detect_vest_masked frameH frameW _ contoursV) =
          false
        unfold detect_vest_masked
        rw [h]
        rfl

/-- C4 witness: concrete failing oracles and raising inputs for each
component. -/
theorem components_catch_exceptions_witness :
    recognize_faces [] (.error "boom") = [] ∧
    recognize_faces
      [{ employee_id := "EMP_B", name := "Bob", encoding := [3, 4] }]
      (.ok [[3, 4], [5, 6]]) = [] ∧
    detect_person (.error "boom") (.ok []) = .pylist [] ∧
    detect_person (.ok []) (.error "boom") = .pylist [] ∧
    detect_helmet 480 640 (pyBBox none) (fun _ => .error "boom") = false ∧
    detect_safety_vest 480 640 (pyBBox none) (fun _ => .error "boom") = false ∧
    detect_helmet 480 640 (.ndrow { x := 0, y := 0, w := 10, h := 10 })
      (fun _ => .ok []) = false ∧
    detect_safety_vest 480 640 (.ndrow { x := 0, y := 0, w := 10, h := 10 })
      (fun _ => .ok []) = false := by
  have h1 := components_catch_exceptions [] (.error "boom") (.ok [])
    480 640 none (fun _ => .error "boom") (fun _ => .error "boom")
  have h2 := components_catch_exceptions [] (.ok []) (.error "boom")
    480 640 none (fun _ => .error "boom") (fun _ => .error "boom")
  have h3 := components_catch_exceptions [] (.error "x") (.ok [])
    480 640 none (fun _ => .ok []) (fun _ => .ok [])
  exact ⟨h1.1 "boom",
    h1.2.1 { employee_id := "EMP_B", name := "Bob", encoding := [3, 4] } []
      [3, 4] [[5, 6]],
    h1.2.2.1 "boom" rfl,
    h2.2.2.2.1 "boom" rfl rfl,
    h1.2.2.2.2.1 "boom" rfl,
    h1.2.2.2.2.2.1 "boom" rfl,
    h3.2.2.2.2.2.2.1 { x := 0, y := 0, w := 10, h := 10 },
    h3.2.2.2.2.2.2.2 { x := 0, y := 0, w := 10, h := 10 }⟩

/-- C6 (amended): a helmet contour qualifies iff its area exceeds 800 px² and
its circularity `4·π·area/perimeter²` exceeds 0.3; a vest contour qualifies
iff its area exceeds 1500 px² and its bounding-box width/height ratio lies
strictly between 0.5 and 2.0; each check reports detected exactly when some
qualifying contour exists in its mask band — the upper 25% of the person box
(upper 30% of the frame without a person box) for helmets, the 25%–75%
vertical band for vests — provided the person region is a plain list or
absent; when the region is a row of the cascade's ndarray, the truthiness
test on it raises internally and both checks report not detected regardless
of contours. -/
theorem ppe_contour_qualification (frameH frameW : Nat) (bbox : Option Rect)
    (contoursH contoursV : Nat × Nat × Nat × Nat → Except String (List Contour))
    (cs cs2 : List Contour)
    (hH : contoursH (helmetBand frameH frameW bbox) = .ok cs)
    (hV : contoursV (vestBand frameH frameW bbox) = .ok cs2)
    (hperim : ∀ c ∈ cs, 0 ≤ c.perimeter)
    (_hrh : ∀ c ∈ cs2, 0 < c.rheight) :
    (detect_helmet frameH frameW (pyBBox bbox) contoursH = true ↔
      ∃ c ∈ cs, 800 < c.area ∧
        3/10 < 4 * piQ * c.area / (c.perimeter * c.perimeter)) ∧
    (detect_safety_vest frameH frameW (pyBBox bbox) contoursV = true ↔
      ∃ c ∈ cs2, 1500 < c.area ∧
        1/2 < (c.rwidth : ℚ) / (c.rheight : ℚ) ∧
        (c.rwidth : ℚ) / (c.rheight : ℚ) < 2) ∧
    (∀ r : Rect, helmetBand frameH frameW (some r) =
      (r.y, r.y + r.h / 4, r.x, r.x + r.w)) ∧
    helmetBand frameH frameW none = (0, 3 * frameH / 10, 0, frameW) ∧
    (∀ r : Rect, vestBand frameH frameW (some r) =
      (r.y + r.h / 4, r.y + 3 * r.h / 4, r.x, r.x + r.w)) ∧
    vestBand frameH frameW none = (frameH / 4, 3 * frameH / 4, 0, frameW) ∧
    (∀ r : Rect, detect_helmet frameH frameW (.ndrow r) contoursH = false) ∧
    (∀ r : Rect, detect_safety_vest frameH frameW (.ndrow r) contoursV = false) := by
  refine ⟨?_, ?_, fun r => rfl, rfl, fun r => rfl, rfl,
    fun r => rfl, fun r => rfl⟩
  · have hshow : detect_helmet frameH frameW (pyBBox bbox) contoursH =
        catchWith false (detect_helmet_masked frameH frameW bbox contoursH) := by
      cases bbox <;> rfl
    rw [hshow]
    unfold detect_helmet_masked
    rw [hH]
    show cs.any helmetQualifies = true ↔ _
    rw [List.any_eq_true]
    constructor
    · rintro ⟨c, hc, hq⟩
      simp only [helmetQualifies, Bool.and_eq_true, decide_eq_true_eq] at hq
      exact ⟨c, hc, hq.1, hq.2.2⟩
    · rintro ⟨c, hc, ha, hcirc⟩
      refine ⟨c, hc, ?_⟩
      have hp : c.perimeter ≠ 0 := by
        intro h0
        rw [h0] at hcirc
        simp only [mul_zero, div_zero] at hcirc
        exact absurd hcirc (by norm_num)
      have hppos : 0 < c.perimeter :=
        lt_of_le_of_ne (hperim c hc) (Ne.symm hp)
      simp only [helmetQualifies, Bool.and_eq_true, decide_eq_true_eq]
      exact ⟨ha, hppos, hcirc⟩
  · have hshow : detect_safety_vest frameH frameW (pyBBox bbox) contoursV =
        catchWith false (detect_vest_masked frameH frameW bbox contoursV) := by
      cases bbox <;> rfl
    rw [hshow]
    unfold detect_vest_masked
    rw [hV]
    show cs2.any vestQualifies = true ↔ _
    rw [List.any_eq_true]
    constructor
    · rintro ⟨c, hc, hq⟩
      simp only [vestQualifies, Bool.and_eq_true, decide_eq_true_eq] at hq
      exact ⟨c, hc, hq.1, hq.2.1, hq.2.2⟩
    · rintro ⟨c, hc, ha, hlo, hhi⟩
      refine ⟨c, hc, ?_⟩
      simp only [vestQualifies, Bool.and_eq_true, decide_eq_true_eq]
      exact ⟨ha, hlo, hhi⟩

/-- C6 counterexample to the claim as stated: with the person region given as
a row of the cascade ndarray, a qualifying helmet contour (area 900,
circularity π·900/900 = π > 0.3) and a qualifying vest contour (area 1600,
ratio 4/3) both go undetected. -/
theorem ppe_ndarray_bbox_not_detected :
    detect_helmet 480 640 (.ndrow { x := 100, y := 50, w := 200, h := 400 })
      (fun _ => .ok [{ area := 900, perimeter := 60, rx := 0, ry := 0,
                       rwidth := 30, rheight := 30 }]) = false ∧
    helmetQualifies
      { area := 900, perimeter := 60, rx := 0, ry := 0,
        rwidth := 30, rheight := 30 } = true ∧
    detect_safety_vest 480 640
      (.ndrow { x := 100, y := 50, w := 200, h := 400 })
      (fun _ => .ok [{ area := 1600, perimeter := 200, rx := 0, ry := 0,
                       rwidth := 40, rheight := 30 }]) = false ∧
    vestQualifies
      { area := 1600, perimeter := 200, rx := 0, ry := 0,
        rwidth := 40, rheight := 30 } = true := by
  refine ⟨rfl, ?_, rfl, ?_⟩
  · simp only [helmetQualifies, Bool.and_eq_true, decide_eq_true_eq]
    norm_num [piQ]
  · simp only [vestQualifies, Bool.and_eq_true, decide_eq_true_eq]
    norm_num

/-- C6 witness: the same two qualifying contours are detected when the person
region is a plain list box. -/
theorem ppe_contour_qualification_witness :
    detect_helmet 480 640
      (pyBBox (some { x := 100, y := 50, w := 200, h := 400 }))
      (fun _ => .ok [{ area := 900, perimeter := 60, rx := 0, ry := 0,
                       rwidth := 30, rheight := 30 }]) = true ∧
    detect_safety_vest 480 640
      (pyBBox (some { x := 100, y := 50, w := 200, h := 400 }))
      (fun _ => .ok [{ area := 1600, perimeter := 200, rx := 0, ry := 0,
                       rwidth := 40, rheight := 30 }]) = true := by
  have h := ppe_contour_qualification 480 640
    (some { x := 100, y := 50, w := 200, h := 400 })
    (fun _ => .ok [{ area := 900, perimeter := 60, rx := 0, ry := 0,
                     rwidth := 30, rheight := 30 }])
    (fun _ => .ok [{ area := 1600, perimeter := 200, rx := 0, ry := 0,
                     rwidth := 40, rheight := 30 }])
    [{ area := 900, perimeter := 60, rx := 0, ry := 0,
       rwidth := 30, rheight := 30 }]
    [{ area := 1600, perimeter := 200, rx := 0, ry := 0,
       rwidth := 40, rheight := 30 }]
    rfl rfl
    (by intro c hc; simp at hc; subst hc; norm_num)
    (by intro c hc; simp at hc; subst hc; norm_num)
  refine ⟨h.1.mpr ⟨_, List.mem_singleton.mpr rfl, by norm_num,
      by norm_num [piQ]⟩,
    h.2.1.mpr ⟨_, List.mem_singleton.mpr rfl, by norm_num, by norm_num,
      by norm_num⟩⟩

/-- C8 (refuted, code bug): the endpoint never binds the globals `np`/`cv2`
it uses at app_simple.py:1188-1189, so every payload whose base64 buffer
decodes raises `NameError` there and is answered 500
"Safety analysis failed: name np is not defined" — the intended 400
"Invalid image format" branch at lines 1191-1192 is unreachable; payloads
whose base64 decoding fails are answered 500 with the binascii message; a
missing payload is the separate 400; and no payload is ever answered with a
SafetyAssessment. -/
theorem analyze_frame_np_unbound :
    (∀ s : List Char, ∃ msg, analyze_safety_frame (some s) =
      .err 500 ("Safety analysis failed: " ++ msg)) ∧
    analyze_safety_frame (some ['A', 'A', 'A', 'A']) =
      .err 500 ("Safety analysis failed: " ++ "name np is not defined") ∧
    analyze_safety_frame (some ['a', 'a']) =
      .err 500 ("Safety analysis failed: " ++ "Incorrect padding") ∧
    analyze_safety_frame none = .err 400 "Frame data is required" ∧
    (∀ (s : List Char) (st : Nat) (res : SafetyResult),
      analyze_safety_frame (some s) ≠ Response.payload st res) ∧
    (∀ s : List Char,
      analyze_safety_frame (some s) ≠ Response.err 400 "Invalid image format") := by
  have hall : ∀ s : List Char, ∃ msg, analyze_safety_frame (some s) =
      .err 500 ("Safety analysis failed: " ++ msg) := by
    intro s
    cases hb : b64decode (stripDataUrl s) with
    | error e => exact ⟨e, by simp only [analyze_safety_frame, hb]⟩
    | ok bytes =>
      exact ⟨"name np is not defined", by simp only [analyze_safety_frame, hb]⟩
  refine ⟨hall, rfl, rfl, rfl, ?_, ?_⟩
  · intro s st res h
    obtain ⟨msg, hm⟩ := hall s
    rw [hm] at h
    exact Response.noConfusion h
  · intro s h
    obtain ⟨msg, hm⟩ := hall s
    rw [hm] at h
    injection h with h1 h2
    exact absurd h1 (by decide)

/-- C9 (refuted, code bug): the reload clears and repopulates the three
published gallery lists in place, so a concurrent match can observe a state —
here, after the clears and the first id append — that is neither the complete
old gallery nor the complete new gallery, and whose lists are not even of
equal length. -/
theorem load_employees_exposes_partial_gallery :
    ∃ s ∈ loadTrace
        { known_face_encodings := [[1]], known_face_names := ["Old"],
          known_employee_ids := ["OLD"] }
        [{ employee_id := "NEW", name := "New", face_encoding := [2] }],
      s ≠ { known_face_encodings := [[1]], known_face_names := ["Old"],
            known_employee_ids := ["OLD"] } ∧
      s ≠ load_employees_from_db
            { known_face_encodings := [[1]], known_face_names := ["Old"],
              known_employee_ids := ["OLD"] }
            [{ employee_id := "NEW", name := "New", face_encoding := [2] }] ∧
      s.known_employee_ids.length ≠ s.known_face_encodings.length := by
  have hq : employeeQualifies
      { employee_id := "NEW", name := "New", face_encoding := [2] } = true := by
    simp [employeeQualifies]
  refine ⟨{ known_face_encodings := [], known_face_names := [],
            known_employee_ids := ["NEW"] }, ?_, ?_, ?_, by simp⟩
  · simp [loadTrace, loadTraceGo, hq]
  · simp
  · simp [load_employees_from_db, loadStep, hq]

/-- C10: the three gallery lists always have equal length and aligned
entries: a (completed) load produces exactly the three projections of the
filtered employee documents, and registration on any aligned gallery either
leaves it unchanged (duplicate id) or appends one aligned entry. -/
theorem gallery_lists_aligned :
    (∀ (g : GalleryState) (emps : List EmployeeDoc),
      load_employees_from_db g emps =
        gOf ((emps.filter employeeQualifies).map
          (fun e => (e.employee_id, e.name, e.face_encoding)))) ∧
    (∀ (entries : List (String × String × List ℚ)) (nm eid : String)
        (enc : List ℚ),
      register_employee (gOf entries) nm eid enc =
        if eid ∈ entries.map (fun p => p.1) then (gOf entries, false)
        else (gOf (entries ++ [(eid, nm, enc)]), true)) ∧
    (∀ entries : List (String × String × List ℚ),
      (gOf entries).known_employee_ids.length =
        (gOf entries).known_face_names.length ∧
      (gOf entries).known_face_names.length =
        (gOf entries).known_face_encodings.length) := by
  have hfold : ∀ (emps : List EmployeeDoc) (g : GalleryState),
      emps.foldl loadStep g =
        { known_face_encodings := g.known_face_encodings ++
            ((emps.filter employeeQualifies).map (fun e => e.face_encoding)),
          known_face_names := g.known_face_names ++
            ((emps.filter employeeQualifies).map (fun e => e.name)),
          known_employee_ids := g.known_employee_ids ++
            ((emps.filter employeeQualifies).map (fun e => e.employee_id)) } := by
    intro emps
    induction emps with
    | nil => intro g; simp
    | cons e es ih =>
      intro g
      by_cases hq : employeeQualifies e
      · simp [loadStep, hq, ih, List.filter_cons]
      · simp [loadStep, hq, ih, List.filter_cons]
  refine ⟨?_, ?_, ?_⟩
  · intro g emps
    unfold load_employees_from_db
    rw [hfold]
    simp [gOf, Function.comp]
  · intro entries nm eid enc
    by_cases hmem : eid ∈ entries.map (fun p => p.1)
    · rw [if_pos hmem]
      unfold register_employee
      rw [if_pos (by simpa [gOf] using hmem)]
    · rw [if_neg hmem]
      unfold register_employee
      rw [if_neg (by simpa [gOf] using hmem)]
      simp [gOf]
  · intro entries
    simp [gOf]

end WMS
